import Mathlib

/-
Verification of the capability-enumeration and format-negotiation layer of
the eye-rs video-capture HAL (src/hal/v4l2/device.rs).

The platform query surface (the v4l crate: device list, capability, control,
format and frame-size queries, and the live capture device) is an external
collaborator; it is embedded as an explicit snapshot value so that
PlatformList::enumerate becomes a pure function of the snapshot, translated
statement by statement from the Rust source.  Machine integers are embedded
as Nat / Int: every cast in the source is a value-preserving widening
(i32/u32 to i64/u64), so no modular reduction arises.
-/

set_option autoImplicit false

namespace EyeRs

/-- Modelled from the spec: crate::format::FourCC (not under src/), a four-byte
pixel-format code, opaque, compared by exact byte equality, constructed from a
raw byte sequence. -/
structure FourCC where
  repr : List Nat
deriving DecidableEq

/-- FourCC::new copies the raw byte sequence. -/
def FourCC.new (repr : List Nat) : FourCC :=
  { repr := repr }

/-- Modelled from the spec: crate::format::Format (not under src/), the
negotiated capture format: width, height, fourcc and platform-reported
stride in bytes per row. -/
structure Format where
  width : Nat
  height : Nat
  fourcc : FourCC
  stride : Nat
deriving DecidableEq

/-- Format::with_stride builds a Format from all four components. -/
def Format.with_stride (width height : Nat) (fourcc : FourCC) (stride : Nat) : Format :=
  { width := width, height := height, fourcc := fourcc, stride := stride }

namespace control

/-- Modelled from the spec: crate::control::Integer (not under src/), integer
control constraints: range (min, max) as 64-bit signed, step as 64-bit
unsigned, default as 64-bit signed. -/
structure Integer where
  range : Int × Int
  step : Nat
  default : Int
deriving DecidableEq

/-- Modelled from the spec: crate::control::MenuItem (not under src/), a menu
entry that is either a named option or a numeric option. -/
inductive MenuItem where
  | String : String → MenuItem
  | Integer : Int → MenuItem
deriving DecidableEq

/-- Modelled from the spec: crate::control::Representation (not under src/),
the closed control taxonomy with an Unknown fallback. -/
inductive Representation where
  | Integer : Integer → Representation
  | Boolean : Representation
  | Menu : List MenuItem → Representation
  | Button : Representation
  | String : Representation
  | Bitmask : Representation
  | Unknown : Representation
deriving DecidableEq

end control

/-- Modelled from the spec: crate::device::ControlInfo (not under src/),
platform-assigned id, name and classified representation. -/
structure ControlInfo where
  id : Nat
  name : String
  repr : control.Representation
deriving DecidableEq

/-- Modelled from the spec: crate::device::FormatInfo (not under src/),
a fourcc, its ordered discrete resolutions and the emulated flag. -/
structure FormatInfo where
  fourcc : FourCC
  resolutions : List (Nat × Nat)
  emulated : Bool
deriving DecidableEq

/-- Modelled from the spec: crate::device::Info (not under src/), the device
descriptor assembled by enumeration. -/
structure DeviceInfo where
  index : Nat
  name : String
  formats : List FormatInfo
  controls : List ControlInfo
deriving DecidableEq

/-- The platform control type taxonomy (v4l::control::Type, external
collaborator).  The source match recognises Integer, Integer64, Boolean,
Menu, Button, String and Bitmask; the remaining platform types fall to the
catch-all arm. -/
inductive ControlType where
  | Integer : ControlType
  | Boolean : ControlType
  | Menu : ControlType
  | Button : ControlType
  | Integer64 : ControlType
  | CtrlClass : ControlType
  | String : ControlType
  | Bitmask : ControlType
  | IntegerMenu : ControlType
  | U8 : ControlType
  | U16 : ControlType
  | U32 : ControlType
  | Area : ControlType
deriving DecidableEq

/-- The platform menu item (v4l::control::MenuItem, external collaborator):
a name or a numeric value. -/
inductive ControlMenuItem where
  | Name : String → ControlMenuItem
  | Value : Int → ControlMenuItem
deriving DecidableEq

/-- A raw platform control description (v4l::control::Description, external
collaborator): id, name, type, 64-bit numeric constraints, and the optional
(index, item) menu mapping in the platform's native order. -/
structure RawControl where
  id : Nat
  name : String
  typ : ControlType
  minimum : Int
  maximum : Int
  step : Nat
  default : Int
  items : Option (List (Nat × ControlMenuItem))
deriving DecidableEq

/-- Raw platform capabilities (v4l::Capabilities, external collaborator):
a bit set of capability flags. -/
structure Capability where
  capabilities : Nat
deriving DecidableEq

/-- v4l::capability::Flags::VIDEO_CAPTURE. -/
def VIDEO_CAPTURE : Nat := 1

/-- v4l::capability::Flags::STREAMING. -/
def STREAMING : Nat := 67108864

/-- v4l::format::Flags::EMULATED. -/
def EMULATED : Nat := 2

/-- A discrete frame size (v4l::framesize::Discrete, external collaborator). -/
structure DiscreteSize where
  width : Nat
  height : Nat
deriving DecidableEq

/-- A stepwise frame-size range (v4l::framesize::Stepwise, external
collaborator). -/
structure StepwiseSize where
  min_width : Nat
  max_width : Nat
  step_width : Nat
  min_height : Nat
  max_height : Nat
  step_height : Nat
deriving DecidableEq

/-- v4l::framesize::FrameSizeEnum, external collaborator: a frame size is
either discrete or stepwise. -/
inductive FrameSizeEnum where
  | Discrete : DiscreteSize → FrameSizeEnum
  | Stepwise : StepwiseSize → FrameSizeEnum
deriving DecidableEq

/-- A raw frame-size enumeration entry (v4l::framesize::FrameSize, external
collaborator). -/
structure RawFrameSize where
  size : FrameSizeEnum
deriving DecidableEq

/-- A raw format description (v4l::format::Description, external
collaborator): the fourcc, the format flag bits and a human-readable text. -/
structure RawFormat where
  fourcc : FourCC
  flags : Nat
  description : String
deriving DecidableEq

/-- The query surface of one opened capture device as used by enumerate():
the result of enumerate_formats() and, per fourcc, of
enumerate_framesizes(fourcc).  Each query may fail independently. -/
structure OpenedDevice where
  enumerate_formats : Except Unit (List RawFormat)
  enumerate_framesizes : FourCC → Except Unit (List RawFrameSize)

/-- One raw entry of the platform device list (v4l::DeviceList node, external
collaborator), as queried by enumerate(): index() and name() may be
unresolvable, query_caps() and query_controls() may fail, and opening the
device by index (PlatformDevice::new) may fail. -/
structure RawDevice where
  index : Option Nat
  name : Option String
  query_caps : Except Unit Capability
  query_controls : Except Unit (List RawControl)
  open_device : Except Unit OpenedDevice

/-- The inner loop of the Menu arm (device.rs lines 69-81): walk the
platform's (index, item) pairs in order and push a MenuItem of the matching
kind for each; plat_item.1 in Rust is the second tuple component. -/
def collect_menu_items : List (Nat × ControlMenuItem) → List control.MenuItem
  | [] => []
  | plat_item :: rest =>
    match plat_item.2 with
    | ControlMenuItem.Name name => control.MenuItem.String name :: collect_menu_items rest
    | ControlMenuItem.Value value => control.MenuItem.Integer value :: collect_menu_items rest

/-- The control classification match (device.rs lines 55-94): repr starts as
Unknown and is replaced by the arm matching the control type; the catch-all
arm leaves it Unknown.  The i64/u64 casts of the source are value-preserving
widenings, so the constraint fields are copied verbatim. -/
def classify_control (c : RawControl) : control.Representation :=
  let repr := control.Representation.Unknown
  match c.typ with
  | ControlType.Integer | ControlType.Integer64 =>
    let constraints : control.Integer :=
      { range := (c.minimum, c.maximum), step := c.step, default := c.default }
    control.Representation.Integer constraints
  | ControlType.Boolean => control.Representation.Boolean
  | ControlType.Menu =>
    let items :=
      match c.items with
      | some plat_items => collect_menu_items plat_items
      | none => []
    control.Representation.Menu items
  | ControlType.Button => control.Representation.Button
  | ControlType.String => control.Representation.String
  | ControlType.Bitmask => control.Representation.Bitmask
  | _ => repr

/-- The controls loop (device.rs lines 54-101): one ControlInfo is pushed per
raw control, unconditionally, in enumeration order. -/
def collect_controls : List RawControl → List ControlInfo
  | [] => []
  | c :: rest =>
    { id := c.id, name := c.name, repr := classify_control c } :: collect_controls rest

/-- The frame-size loop (device.rs lines 126-131): keep discrete entries in
order, drop stepwise entries. -/
def collect_resolutions : List RawFrameSize → List (Nat × Nat)
  | [] => []
  | plat_size :: rest =>
    match plat_size.size with
    | FrameSizeEnum.Discrete size => (size.width, size.height) :: collect_resolutions rest
    | FrameSizeEnum.Stepwise _ => collect_resolutions rest

/-- The FormatInfo construction (device.rs lines 120-131): fourcc copied via
FourCC::new, emulated from the bitwise EMULATED flag test, resolutions from
the frame-size loop. -/
def classify_format (format : RawFormat) (plat_sizes : List RawFrameSize) : FormatInfo :=
  { fourcc := FourCC.new format.fourcc.repr
    resolutions := collect_resolutions plat_sizes
    emulated := format.flags &&& EMULATED == EMULATED }

/-- The formats loop (device.rs lines 115-133): for each raw format query its
frame sizes; on failure skip that format only, otherwise push its
FormatInfo. -/
def collect_formats (dev : OpenedDevice) : List RawFormat → List FormatInfo
  | [] => []
  | format :: rest =>
    match dev.enumerate_framesizes format.fourcc with
    | Except.error _ => collect_formats dev rest
    | Except.ok plat_sizes => classify_format format plat_sizes :: collect_formats dev rest

/-- The body of the enumerate() loop for one raw device (device.rs lines
24-141): skip on unresolvable index or name or failed capability query; skip
unless both VIDEO_CAPTURE and STREAMING flags are present under the bitwise
AND test; skip if the controls query fails; skip if opening by index fails;
skip if the format enumeration fails; otherwise assemble the DeviceInfo. -/
def probe_device (dev : RawDevice) : Option DeviceInfo :=
  match dev.index, dev.name, dev.query_caps with
  | some index, some name, Except.ok caps =>
    if caps.capabilities &&& VIDEO_CAPTURE != VIDEO_CAPTURE
        || caps.capabilities &&& STREAMING != STREAMING then
      none
    else
      match dev.query_controls with
      | Except.error _ => none
      | Except.ok plat_controls =>
        let controls := collect_controls plat_controls
        match dev.open_device with
        | Except.error _ => none
        | Except.ok opened =>
          match opened.enumerate_formats with
          | Except.error _ => none
          | Except.ok plat_formats =>
            let formats := collect_formats opened plat_formats
            some { index := index, name := name, formats := formats, controls := controls }
  | _, _, _ => none

/-- PlatformList::enumerate (device.rs lines 20-144) over a platform
snapshot: walk the raw device list in order, appending the DeviceInfo of
every device that survives all probes. -/
def enumerate : List RawDevice → List DeviceInfo
  | [] => []
  | dev :: platform_list =>
    match probe_device dev with
    | none => enumerate platform_list
    | some info => info :: enumerate platform_list

/-- The platform-side capture format struct (v4l::capture::Format, external
collaborator): Format::new fills width, height and fourcc and leaves the
platform-derived stride zeroed; the stride of the desired Format is never
copied into it. -/
structure CaptureFormat where
  width : Nat
  height : Nat
  fourcc : FourCC
  stride : Nat
deriving DecidableEq

/-- CaptureFormat::new(width, height, fourcc). -/
def CaptureFormat.new (width height : Nat) (fourcc : FourCC) : CaptureFormat :=
  { width := width, height := height, fourcc := fourcc, stride := 0 }

/-- Modelled from the spec: the live platform capture device behind
PlatformDevice (v4l::capture::Device, external collaborator), as a state
machine over device states σ: get_format queries the active format without
changing the state; set_format submits a requested format and either fails
or yields the new device state (the platform is permitted to round the
requested geometry). -/
structure CaptureModel (σ : Type) where
  get_format : σ → Except Unit CaptureFormat
  set_format : σ → CaptureFormat → Except Unit σ

/-- PlatformDevice::get_format (device.rs lines 176-184): query the platform
format and repackage it, stride included, via Format::with_stride. -/
def PlatformDevice.get_format {σ : Type} (m : CaptureModel σ) (s : σ) :
    Except Unit Format :=
  match m.get_format s with
  | Except.error e => Except.error e
  | Except.ok fmt =>
    Except.ok (Format.with_stride fmt.width fmt.height fmt.fourcc fmt.stride)

/-- PlatformDevice::set_format (device.rs lines 186-190): build the platform
request from width, height and fourcc only, submit it (propagating a
rejection), then return the re-queried current format; the pair carries the
post-set device state alongside the returned Format, standing for the
mutation of the handle. -/
def PlatformDevice.set_format {σ : Type} (m : CaptureModel σ) (s : σ)
    (fmt : Format) : Except Unit (σ × Format) :=
  let plat_fmt := CaptureFormat.new fmt.width fmt.height fmt.fourcc
  match m.set_format s plat_fmt with
  | Except.error e => Except.error e
  | Except.ok s2 =>
    match PlatformDevice.get_format m s2 with
    | Except.error e => Except.error e
    | Except.ok result => Except.ok (s2, result)

/-- A concrete YUYV fourcc used by the witnesses. -/
def fourcc_yuyv : FourCC := FourCC.new [89, 85, 89, 86]

/-- A concrete MJPG fourcc used by the witnesses. -/
def fourcc_mjpg : FourCC := FourCC.new [77, 74, 80, 71]

/-- A concrete raw YUYV format description. -/
def sample_format_yuyv : RawFormat :=
  { fourcc := fourcc_yuyv, flags := 0, description := "YUYV 4:2:2" }

/-- A concrete raw MJPG format description, flagged as emulated. -/
def sample_format_mjpg : RawFormat :=
  { fourcc := fourcc_mjpg, flags := 2, description := "Motion-JPEG" }

/-- A concrete integer control. -/
def sample_control : RawControl :=
  { id := 9963776, name := "Brightness", typ := ControlType.Integer,
    minimum := -64, maximum := 64, step := 1, default := 0, items := none }

/-- A concrete menu control mixing named and numeric platform items. -/
def sample_menu_control : RawControl :=
  { id := 9963800, name := "Power Line Frequency", typ := ControlType.Menu,
    minimum := 0, maximum := 2, step := 1, default := 1,
    items := some [(0, ControlMenuItem.Name "Disabled"),
                   (1, ControlMenuItem.Value 50),
                   (2, ControlMenuItem.Name "60 Hz")] }

/-- A concrete menu control whose platform item mapping is absent. -/
def sample_menu_empty : RawControl :=
  { id := 9963801, name := "Mystery Menu", typ := ControlType.Menu,
    minimum := 0, maximum := 0, step := 1, default := 0, items := none }

/-- A concrete control of a platform type the source does not recognise. -/
def sample_u8_control : RawControl :=
  { id := 9963802, name := "Raw Bytes", typ := ControlType.U8,
    minimum := 0, maximum := 255, step := 1, default := 0, items := none }

/-- A concrete opened device answering every query. -/
def sample_opened : OpenedDevice :=
  { enumerate_formats := Except.ok [sample_format_yuyv]
    enumerate_framesizes := fun fourcc =>
      if fourcc = fourcc_yuyv then
        Except.ok
          [{ size := FrameSizeEnum.Discrete { width := 640, height := 480 } },
           { size := FrameSizeEnum.Stepwise
              { min_width := 32, max_width := 640, step_width := 16,
                min_height := 32, max_height := 480, step_height := 16 } },
           { size := FrameSizeEnum.Discrete { width := 320, height := 240 } }]
      else Except.error () }

/-- A concrete opened device whose frame-size query fails for MJPG only. -/
def sample_opened_mixed : OpenedDevice :=
  { enumerate_formats := Except.ok [sample_format_yuyv, sample_format_mjpg]
    enumerate_framesizes := fun fourcc =>
      if fourcc = fourcc_yuyv then
        Except.ok [{ size := FrameSizeEnum.Discrete { width := 640, height := 480 } }]
      else Except.error () }

/-- A concrete well-behaved raw device. -/
def sample_device : RawDevice :=
  { index := some 0, name := some "Sample Camera",
    query_caps := Except.ok { capabilities := VIDEO_CAPTURE ||| STREAMING },
    query_controls := Except.ok [sample_control, sample_menu_control],
    open_device := Except.ok sample_opened }

/-- A concrete raw device with an unresolvable index. -/
def sample_no_index : RawDevice :=
  { index := none, name := some "Ghost",
    query_caps := Except.ok { capabilities := VIDEO_CAPTURE ||| STREAMING },
    query_controls := Except.ok [],
    open_device := Except.ok sample_opened }

/-- A concrete raw device reporting capture but not streaming capability. -/
def sample_no_streaming : RawDevice :=
  { index := some 1, name := some "Legacy",
    query_caps := Except.ok { capabilities := VIDEO_CAPTURE },
    query_controls := Except.ok [],
    open_device := Except.ok sample_opened }

/-- A concrete raw device whose controls query fails. -/
def sample_bad_controls : RawDevice :=
  { index := some 2, name := some "Moody",
    query_caps := Except.ok { capabilities := VIDEO_CAPTURE ||| STREAMING },
    query_controls := Except.error (),
    open_device := Except.ok sample_opened }

/-- A concrete raw device that cannot be opened by index. -/
def sample_bad_open : RawDevice :=
  { index := some 3, name := some "Locked",
    query_caps := Except.ok { capabilities := VIDEO_CAPTURE ||| STREAMING },
    query_controls := Except.ok [sample_control],
    open_device := Except.error () }

/-- A concrete raw device whose format enumeration fails after opening. -/
def sample_bad_formats : RawDevice :=
  { index := some 4, name := some "Formatless",
    query_caps := Except.ok { capabilities := VIDEO_CAPTURE ||| STREAMING },
    query_controls := Except.ok [sample_control],
    open_device := Except.ok
      { enumerate_formats := Except.error ()
        enumerate_framesizes := fun _ => Except.error () } }

/-- A concrete capture model: the platform stores the request as the new
state and derives the stride as twice the width on query. -/
def demo_model : CaptureModel CaptureFormat :=
  { get_format := fun s => Except.ok { s with stride := s.width * 2 }
    set_format := fun _ requested => Except.ok requested }

/-- A concrete capture model that accepts every set request but fails every
subsequent format query. -/
def demo_flaky_model : CaptureModel CaptureFormat :=
  { get_format := fun _ => Except.error ()
    set_format := fun _ requested => Except.ok requested }

/-- A concrete desired format with a caller-chosen stride. -/
def demo_format : Format :=
  { width := 640, height := 480, fourcc := fourcc_yuyv, stride := 1280 }

/-- A concrete initial device state. -/
def demo_state : CaptureFormat := CaptureFormat.new 320 240 fourcc_mjpg

theorem collect_menu_items_eq_map (plat_items : List (Nat × ControlMenuItem)) :
    collect_menu_items plat_items
      = plat_items.map (fun plat_item =>
          match plat_item.2 with
          | ControlMenuItem.Name name => control.MenuItem.String name
          | ControlMenuItem.Value value => control.MenuItem.Integer value) := by
  induction plat_items with
  | nil => rfl
  | cons plat_item rest ih =>
    cases plat_item with
    | mk idx item => cases item <;> simp [collect_menu_items, ih]

theorem collect_controls_eq_map (plat_controls : List RawControl) :
    collect_controls plat_controls
      = plat_controls.map (fun c =>
          { id := c.id, name := c.name, repr := classify_control c }) := by
  induction plat_controls with
  | nil => rfl
  | cons c rest ih => simp [collect_controls, ih]

theorem collect_resolutions_eq_filterMap (plat_sizes : List RawFrameSize) :
    collect_resolutions plat_sizes
      = plat_sizes.filterMap (fun plat_size =>
          match plat_size.size with
          | FrameSizeEnum.Discrete size => some (size.width, size.height)
          | FrameSizeEnum.Stepwise _ => none) := by
  induction plat_sizes with
  | nil => rfl
  | cons plat_size rest ih =>
    cases plat_size with
    | mk sz => cases sz <;> simp [collect_resolutions, List.filterMap_cons, ih]

theorem collect_formats_append (dev : OpenedDevice) (l1 l2 : List RawFormat) :
    collect_formats dev (l1 ++ l2) = collect_formats dev l1 ++ collect_formats dev l2 := by
  induction l1 with
  | nil => rfl
  | cons format rest ih =>
    simp only [List.cons_append, collect_formats]
    cases dev.enumerate_framesizes format.fourcc <;> simp [ih]

theorem enumerate_append (l1 l2 : List RawDevice) :
    enumerate (l1 ++ l2) = enumerate l1 ++ enumerate l2 := by
  induction l1 with
  | nil => rfl
  | cons dev rest ih =>
    simp only [List.cons_append, enumerate]
    cases probe_device dev <;> simp [ih]

theorem probe_device_skip (dev : RawDevice)
    (h : dev.index = none ∨ dev.name = none ∨ dev.query_caps = Except.error ()) :
    probe_device dev = none := by
  rcases dev with ⟨i, n, qc, qctl, od⟩
  rcases i with _ | i <;> rcases n with _ | n <;> rcases qc with e | qc <;>
    simp_all [probe_device]

theorem probe_device_eq_some (dev : RawDevice) (info : DeviceInfo)
    (h : probe_device dev = some info) :
    ∃ index name caps plat_controls opened plat_formats,
      dev.index = some index ∧ dev.name = some name ∧
      dev.query_caps = Except.ok caps ∧
      (caps.capabilities &&& VIDEO_CAPTURE = VIDEO_CAPTURE ∧
        caps.capabilities &&& STREAMING = STREAMING) ∧
      dev.query_controls = Except.ok plat_controls ∧
      dev.open_device = Except.ok opened ∧
      opened.enumerate_formats = Except.ok plat_formats ∧
      info = { index := index, name := name,
               formats := collect_formats opened plat_formats,
               controls := collect_controls plat_controls } := by
  unfold probe_device at h
  split at h
  case h_2 => exact absurd h (by simp)
  case h_1 index name caps heqi heqn heqc =>
    split at h
    case isTrue => exact absurd h (by simp)
    case isFalse hflags =>
      rcases hctl : dev.query_controls with e | plat_controls <;> rw [hctl] at h <;>
        dsimp only at h
      case error => exact absurd h (by simp)
      rcases hod : dev.open_device with e | opened <;> rw [hod] at h <;>
        dsimp only at h
      case error => exact absurd h (by simp)
      rcases hfmts : opened.enumerate_formats with e | plat_formats <;> rw [hfmts] at h <;>
        dsimp only at h
      case error => exact absurd h (by simp)
      refine ⟨index, name, caps, plat_controls, opened, plat_formats,
        heqi, heqn, heqc, ?_, rfl, rfl, hfmts, ?_⟩
      · constructor
        · by_contra hne
          exact hflags (by simp [hne])
        · by_contra hne
          exact hflags (by simp [hne])
      · simp only [Option.some_inj] at h
        exact h.symm

theorem collect_resolutions_length (plat_sizes : List RawFrameSize) :
    (collect_resolutions plat_sizes).length
      = plat_sizes.countP (fun plat_size =>
          match plat_size.size with
          | FrameSizeEnum.Discrete _ => true
          | FrameSizeEnum.Stepwise _ => false) := by
  induction plat_sizes with
  | nil => rfl
  | cons plat_size rest ih =>
    cases plat_size with
    | mk sz => cases sz <;> simp [collect_resolutions, List.countP_cons, ih]

/-- C1: a raw device entry whose index is unresolvable, whose name is
unresolvable, or whose capability query fails is skipped silently and
enumeration continues with the remaining entries unchanged; enumerate is a
total function into lists of DeviceInfo, so it never fails and may return
the empty list. -/
theorem C1_skip_unprobeable (pre post : List RawDevice) (dev : RawDevice)
    (h : dev.index = none ∨ dev.name = none ∨ dev.query_caps = Except.error ()) :
    enumerate (pre ++ dev :: post) = enumerate (pre ++ post) := by
  rw [enumerate_append, enumerate_append]
  simp [enumerate, probe_device_skip dev h]

/-- C1 witness: a device with an unresolvable index is skipped from a
concrete platform snapshot. -/
theorem C1_skip_unprobeable_witness :
    sample_no_index.index = none ∧
    enumerate [sample_device, sample_no_index] = enumerate [sample_device] :=
  ⟨rfl, C1_skip_unprobeable [sample_device] [] sample_no_index (Or.inl rfl)⟩

/-- C2: a device that passes the index/name/caps probe is included only if
its capability bits contain both VIDEO_CAPTURE and STREAMING under the
bitwise AND test; a device missing either flag is skipped. -/
theorem C2_capability_gate (dev : RawDevice) (index : Nat) (name : String)
    (caps : Capability) (hi : dev.index = some index) (hn : dev.name = some name)
    (hc : dev.query_caps = Except.ok caps) :
    ((probe_device dev).isSome →
      caps.capabilities &&& VIDEO_CAPTURE = VIDEO_CAPTURE ∧
      caps.capabilities &&& STREAMING = STREAMING) ∧
    (¬(caps.capabilities &&& VIDEO_CAPTURE = VIDEO_CAPTURE ∧
        caps.capabilities &&& STREAMING = STREAMING) →
      probe_device dev = none) := by
  constructor
  · intro hs
    rcases Option.isSome_iff_exists.mp hs with ⟨info, hinfo⟩
    rcases probe_device_eq_some dev info hinfo with
      ⟨i2, n2, caps2, pc, od, pf, hi2, hn2, hc2, hfl, _⟩
    rw [hc] at hc2
    simp only [Except.ok.injEq] at hc2
    rw [hc2]
    exact hfl
  · intro hflags
    have hcond : (caps.capabilities &&& VIDEO_CAPTURE != VIDEO_CAPTURE ||
        caps.capabilities &&& STREAMING != STREAMING) = true := by
      rcases not_and_or.mp hflags with hne | hne <;> simp [hne]
    unfold probe_device
    rw [hi, hn, hc]
    dsimp only
    rw [hcond]
    rfl

/-- C2 witness: a concrete device lacking the STREAMING flag is skipped,
while a concrete device holding both flags survives the gate. -/
theorem C2_capability_gate_witness :
    probe_device sample_no_streaming = none ∧
    (probe_device sample_device).isSome = true := by
  constructor
  · exact (C2_capability_gate sample_no_streaming 1 "Legacy"
      { capabilities := VIDEO_CAPTURE } rfl rfl rfl).2 (by decide)
  · rfl

/-- C3: a failed controls query makes the whole device be skipped; a
successful one yields exactly one ControlInfo per raw control, in
enumeration order, each classified by classify_control, so unrecognized
control types become Unknown instead of the control being dropped or the
device being skipped. -/
theorem C3_controls_totality (dev : RawDevice) :
    (dev.query_controls = Except.error () → probe_device dev = none) ∧
    (∀ plat_controls info, dev.query_controls = Except.ok plat_controls →
      probe_device dev = some info →
      info.controls = plat_controls.map (fun c =>
        { id := c.id, name := c.name, repr := classify_control c })) := by
  constructor
  · intro herr
    rcases dev with ⟨i, n, qc, qctl, od⟩
    rcases i with _ | i <;> rcases n with _ | n <;> rcases qc with e | caps <;>
      simp_all [probe_device]
  · intro plat_controls info hok hsome
    rcases probe_device_eq_some dev info hsome with
      ⟨i2, n2, caps2, pc, od, pf, _, _, _, _, hctl2, _, _, hinfo⟩
    rw [hok] at hctl2
    simp only [Except.ok.injEq] at hctl2
    subst hctl2
    subst hinfo
    exact collect_controls_eq_map plat_controls

/-- C3 witness: the device with a failing controls query is skipped; the
well-behaved device contributes one classified ControlInfo per raw
control. -/
theorem C3_controls_totality_witness :
    probe_device sample_bad_controls = none ∧
    (∃ info, probe_device sample_device = some info ∧
      info.controls = [sample_control, sample_menu_control].map (fun c =>
        { id := c.id, name := c.name, repr := classify_control c })) := by
  refine ⟨(C3_controls_totality sample_bad_controls).1 rfl, ⟨_, rfl, ?_⟩⟩
  exact (C3_controls_totality sample_device).2 [sample_control, sample_menu_control]
    _ rfl rfl

/-- C4: control classification is total and follows the mapping table:
Integer and Integer64 yield Integer constraints copied verbatim (the
source's 64-bit casts are value-preserving widenings, no clamping or
validation); Boolean, Button, String and Bitmask map to their same-named
variants; Menu preserves each platform item's kind (String for named,
Integer for numeric) and the platform's native order; every other platform
type maps to Unknown. -/
theorem C4_classification_table (c : RawControl) :
    ((c.typ = ControlType.Integer ∨ c.typ = ControlType.Integer64) →
      classify_control c = control.Representation.Integer
        { range := (c.minimum, c.maximum), step := c.step, default := c.default }) ∧
    (c.typ = ControlType.Boolean →
      classify_control c = control.Representation.Boolean) ∧
    (c.typ = ControlType.Button →
      classify_control c = control.Representation.Button) ∧
    (c.typ = ControlType.String →
      classify_control c = control.Representation.String) ∧
    (c.typ = ControlType.Bitmask →
      classify_control c = control.Representation.Bitmask) ∧
    (∀ plat_items, c.typ = ControlType.Menu → c.items = some plat_items →
      classify_control c = control.Representation.Menu
        (plat_items.map (fun plat_item =>
          match plat_item.2 with
          | ControlMenuItem.Name name => control.MenuItem.String name
          | ControlMenuItem.Value value => control.MenuItem.Integer value))) ∧
    ((c.typ = ControlType.CtrlClass ∨ c.typ = ControlType.IntegerMenu ∨
      c.typ = ControlType.U8 ∨ c.typ = ControlType.U16 ∨
      c.typ = ControlType.U32 ∨ c.typ = ControlType.Area) →
      classify_control c = control.Representation.Unknown) := by
  refine ⟨?_, ?_, ?_, ?_, ?_, ?_, ?_⟩
  · rintro (h | h) <;> simp [classify_control, h]
  · intro h; simp [classify_control, h]
  · intro h; simp [classify_control, h]
  · intro h; simp [classify_control, h]
  · intro h; simp [classify_control, h]
  · intro plat_items htyp hitems
    simp [classify_control, htyp, hitems, collect_menu_items_eq_map]
  · rintro (h | h | h | h | h | h) <;> simp [classify_control, h]

/-- C4 witness: a concrete mixed menu control keeps both item kinds in
native order, and a concrete U8 control classifies as Unknown. -/
theorem C4_classification_table_witness :
    classify_control sample_menu_control = control.Representation.Menu
      [control.MenuItem.String "Disabled", control.MenuItem.Integer 50,
       control.MenuItem.String "60 Hz"] ∧
    classify_control sample_u8_control = control.Representation.Unknown := by
  constructor
  · have h := (C4_classification_table sample_menu_control).2.2.2.2.2.1
      [(0, ControlMenuItem.Name "Disabled"), (1, ControlMenuItem.Value 50),
       (2, ControlMenuItem.Name "60 Hz")] rfl rfl
    rw [h]
    rfl
  · exact (C4_classification_table sample_u8_control).2.2.2.2.2.2
      (Or.inr (Or.inr (Or.inl rfl)))

/-- C5: classify_format keeps exactly the discrete frame-size entries, in
the platform's original order, so the resolution count equals the discrete
count (and may be zero when only stepwise entries exist), and sets emulated
iff the EMULATED bit is set under the bitwise flag test. -/
theorem C5_classify_format (format : RawFormat) (plat_sizes : List RawFrameSize) :
    (classify_format format plat_sizes).resolutions
        = plat_sizes.filterMap (fun plat_size =>
            match plat_size.size with
            | FrameSizeEnum.Discrete size => some (size.width, size.height)
            | FrameSizeEnum.Stepwise _ => none) ∧
    (classify_format format plat_sizes).resolutions.length
        = plat_sizes.countP (fun plat_size =>
            match plat_size.size with
            | FrameSizeEnum.Discrete _ => true
            | FrameSizeEnum.Stepwise _ => false) ∧
    ((classify_format format plat_sizes).emulated = true ↔
      format.flags &&& EMULATED = EMULATED) := by
  refine ⟨collect_resolutions_eq_filterMap plat_sizes,
    collect_resolutions_length plat_sizes, ?_⟩
  simp [classify_format]

/-- C6: during format enumeration of a kept device, a failed open by index
or a failed format-enumeration query skips the whole device, while a failed
frame-size query for one format skips only that format, leaving the
remaining formats of the same device processed and included. -/
theorem C6_format_enumeration (dev : RawDevice) :
    (dev.open_device = Except.error () → probe_device dev = none) ∧
    (∀ opened, dev.open_device = Except.ok opened →
      opened.enumerate_formats = Except.error () → probe_device dev = none) ∧
    (∀ opened (pre post : List RawFormat) (format : RawFormat),
      opened.enumerate_framesizes format.fourcc = Except.error () →
      collect_formats opened (pre ++ format :: post)
        = collect_formats opened (pre ++ post)) ∧
    (∀ info opened plat_formats, probe_device dev = some info →
      dev.open_device = Except.ok opened →
      opened.enumerate_formats = Except.ok plat_formats →
      info.formats = collect_formats opened plat_formats) := by
  refine ⟨?_, ?_, ?_, ?_⟩
  · intro herr
    rcases dev with ⟨i, n, qc, qctl, od⟩
    rcases i with _ | i <;> rcases n with _ | n <;> rcases qc with e | caps <;>
      rcases qctl with e | pcs <;> simp_all [probe_device]
  · intro opened hod herr
    rcases dev with ⟨i, n, qc, qctl, od⟩
    rcases i with _ | i <;> rcases n with _ | n <;> rcases qc with e | caps <;>
      rcases qctl with e | pcs <;> simp_all [probe_device]
  · intro opened pre post format herr
    rw [collect_formats_append, collect_formats_append]
    simp [collect_formats, herr]
  · intro info opened plat_formats hsome hod hfmts
    rcases probe_device_eq_some dev info hsome with
      ⟨i2, n2, caps2, pc, od2, pf, _, _, _, _, _, hod2, hfmts2, hinfo⟩
    rw [hod] at hod2
    simp only [Except.ok.injEq] at hod2
    subst hod2
    rw [hfmts] at hfmts2
    simp only [Except.ok.injEq] at hfmts2
    subst hfmts2
    subst hinfo
    rfl

/-- C6 witness: the unopenable device and the format-query-failing device
are skipped whole; for a concrete opened device whose MJPG frame-size query
fails, dropping MJPG leaves the YUYV format processed and included. -/
theorem C6_format_enumeration_witness :
    probe_device sample_bad_open = none ∧
    probe_device sample_bad_formats = none ∧
    collect_formats sample_opened_mixed
        ([sample_format_yuyv] ++ sample_format_mjpg :: [])
      = collect_formats sample_opened_mixed ([sample_format_yuyv] ++ []) ∧
    collect_formats sample_opened_mixed [sample_format_yuyv, sample_format_mjpg]
      = [{ fourcc := fourcc_yuyv, resolutions := [(640, 480)], emulated := false }] := by
  refine ⟨(C6_format_enumeration sample_bad_open).1 rfl, ?_, ?_, by rfl⟩
  · exact (C6_format_enumeration sample_bad_formats).2.1
      { enumerate_formats := Except.error ()
        enumerate_framesizes := fun _ => Except.error () } rfl rfl
  · exact (C6_format_enumeration sample_bad_open).2.2.1 sample_opened_mixed
      [sample_format_yuyv] [] sample_format_mjpg rfl

/-- C7: set_format submits only width, height and fourcc to the platform
(never the stride of the desired Format); a platform rejection is returned
as the I/O error, and on success the result is the re-queried current
format obtained through get_format, which may differ from the request. -/
theorem C7_set_format_contract {σ : Type} (m : CaptureModel σ) (s : σ)
    (fmt : Format) :
    (∀ stride2, PlatformDevice.set_format m s fmt
        = PlatformDevice.set_format m s
            { width := fmt.width, height := fmt.height, fourcc := fmt.fourcc,
              stride := stride2 }) ∧
    (∀ e, m.set_format s (CaptureFormat.new fmt.width fmt.height fmt.fourcc)
          = Except.error e →
      PlatformDevice.set_format m s fmt = Except.error e) ∧
    (∀ s2, m.set_format s (CaptureFormat.new fmt.width fmt.height fmt.fourcc)
          = Except.ok s2 →
      PlatformDevice.set_format m s fmt
        = match PlatformDevice.get_format m s2 with
          | Except.error e => Except.error e
          | Except.ok result => Except.ok (s2, result)) := by
  refine ⟨?_, ?_, ?_⟩
  · intro stride2
    rfl
  · intro e herr
    unfold PlatformDevice.set_format
    dsimp only
    rw [herr]
  · intro s2 hok
    unfold PlatformDevice.set_format
    dsimp only
    rw [hok]

/-- C7 witness: against a concrete platform model that stores the request
and derives the stride on query, set_format of a 640x480 YUYV request with
caller stride 1280 succeeds with the re-queried format (platform-derived
stride 1280), and changing the desired stride to 999 leaves the call
unchanged. -/
theorem C7_set_format_contract_witness :
    PlatformDevice.set_format demo_model demo_state demo_format
        = Except.ok (CaptureFormat.new 640 480 fourcc_yuyv,
            Format.with_stride 640 480 fourcc_yuyv 1280) ∧
    PlatformDevice.set_format demo_model demo_state demo_format
        = PlatformDevice.set_format demo_model demo_state
            { width := 640, height := 480, fourcc := fourcc_yuyv,
              stride := 999 } := by
  constructor
  · have h3 := (C7_set_format_contract demo_model demo_state demo_format).2.2
      (CaptureFormat.new 640 480 fourcc_yuyv) rfl
    rw [h3]
    rfl
  · exact (C7_set_format_contract demo_model demo_state demo_format).1 999

/-- C8: for a fixed platform snapshot, two calls of enumerate yield
identical lists in the same order, and that order is the platform
enumeration order: enumerate is the order-preserving per-device filterMap
of probe_device over the raw list, with no re-sorting. -/
theorem C8_deterministic_order (platform_list : List RawDevice) :
    enumerate platform_list = enumerate platform_list ∧
    enumerate platform_list = platform_list.filterMap probe_device := by
  refine ⟨rfl, ?_⟩
  induction platform_list with
  | nil => rfl
  | cons dev rest ih =>
    rw [enumerate, List.filterMap_cons]
    cases probe_device dev <;> simp [ih]

/-- C9: a Menu-typed control whose platform item mapping is absent is
classified as Menu with an empty item sequence, not Unknown. -/
theorem C9_menu_absent_items (c : RawControl) (htyp : c.typ = ControlType.Menu)
    (hitems : c.items = none) :
    classify_control c = control.Representation.Menu [] := by
  simp [classify_control, htyp, hitems]

/-- C9 witness: a concrete Menu control without an item mapping yields the
empty Menu. -/
theorem C9_menu_absent_items_witness :
    sample_menu_empty.typ = ControlType.Menu ∧ sample_menu_empty.items = none ∧
    classify_control sample_menu_empty = control.Representation.Menu [] :=
  ⟨rfl, rfl, C9_menu_absent_items sample_menu_empty rfl rfl⟩

/-- C10: set_format is not atomic on error: when the platform accepts the
set request, moving the device to a new state, but the subsequent re-query
of the format fails, set_format returns the I/O error even though the
device's active format may already have been changed. -/
theorem C10_set_format_nonatomic {σ : Type} (m : CaptureModel σ) (s : σ)
    (fmt : Format) (s2 : σ)
    (hset : m.set_format s (CaptureFormat.new fmt.width fmt.height fmt.fourcc)
      = Except.ok s2)
    (hget : m.get_format s2 = Except.error ()) :
    PlatformDevice.set_format m s fmt = Except.error () := by
  unfold PlatformDevice.set_format
  dsimp only
  rw [hset]
  dsimp only
  simp [PlatformDevice.get_format, hget]

/-- C10 witness: against a concrete model that accepts every set request
but fails every format query, set_format fails even though the request was
accepted and the state updated. -/
theorem C10_set_format_nonatomic_witness :
    demo_flaky_model.set_format demo_state
        (CaptureFormat.new demo_format.width demo_format.height demo_format.fourcc)
      = Except.ok (CaptureFormat.new 640 480 fourcc_yuyv) ∧
    PlatformDevice.set_format demo_flaky_model demo_state demo_format
      = Except.error () :=
  ⟨rfl, C10_set_format_nonatomic demo_flaky_model demo_state demo_format
    (CaptureFormat.new 640 480 fourcc_yuyv) rfl rfl⟩

end EyeRs
